import Mathlib

/-!
Shallow embedding of the TG_Bot Telegram bot: src/index.mjs (main
dispatcher with conversation state), src/bot.mjs (amusement-park
variant, stateless) and src/unnamed/part_000 (search-term variant).

Modelling conventions: JavaScript numbers are rationals; JavaScript
strings are Lean strings, with `toLowerCase`, `trim` and `includes`
modelled on the ASCII behaviour the bot exercises; the external
collaborators (Foursquare places search, OpenAI chat completion) are
explicit outcome parameters threaded through the handlers; a thrown
exception that escapes a handler is a `crashed` flag on the turn
result, preserving the replies sent and state mutations performed
before the throw.
-/

/-- A place record from the Foursquare places response (field `name`). -/
structure Place where
  name : String
  deriving DecidableEq, Repr

/-- The observable parameters of one Foursquare search call:
`ll=lat,lon`, `radius`, `query`. -/
structure PlacesRequest where
  lat : ℚ
  lon : ℚ
  radius : Nat
  query : String
  deriving DecidableEq, Repr

/-- Outcome of the raw `fetch` + `response.json()` in
`getNearbyPlaces` of src/index.mjs: `ok results` is a parsed JSON
body, where `results = none` models a body that is null or lacks the
`results` field; `thrown` models a rejected fetch or JSON parse. -/
inductive FetchOutcome where
  | ok (results : Option (List Place))
  | thrown
  deriving DecidableEq, Repr

/-- Outcome of an `sdk.placeSearch` call in src/bot.mjs and
src/unnamed/part_000: the SDK either resolves with `data.results` or
rejects. -/
inductive SdkOutcome where
  | ok (results : List Place)
  | thrown
  deriving DecidableEq, Repr

/-- The observable parameters of one `openai.chat.completions.create`
call: model name, `(role, content)` message list, `max_tokens`. -/
structure ChatRequest where
  model : String
  messages : List (String × String)
  maxTokens : Nat
  deriving DecidableEq, Repr

/-- Outcome of one OpenAI call: `success choices` carries the message
contents of `response.choices`; `failure` models a rejected API call. -/
inductive LLMOutcome where
  | success (choices : List String)
  | failure
  deriving DecidableEq, Repr

/-- Per-chat record stored in `userState` of src/index.mjs. -/
structure ChatState where
  awaitingLocation : Bool
  query : String
  deriving DecidableEq, Repr

/-- An inbound Telegram message as the handlers read it: optional
`text` and optional `location` payload. -/
structure TGMessage where
  text : Option String
  location : Option (ℚ × ℚ)
  deriving DecidableEq, Repr

/-- Everything observable about one `handleMessage` turn of
src/index.mjs: replies sent (in order), the per-chat state after the
turn (`none` = never written), the external calls issued, and whether
an uncaught exception ended the turn early. -/
structure TurnResult where
  replies : List String
  state : Option ChatState
  placesCalls : List PlacesRequest
  llmCalls : List ChatRequest
  crashed : Bool
  deriving DecidableEq, Repr

/-- JS `String.prototype.trim`, modelled as dropping whitespace from
both ends. -/
def jsTrim (s : String) : String :=
  ⟨((s.data.dropWhile Char.isWhitespace).reverse.dropWhile Char.isWhitespace).reverse⟩

/-- JS `String.prototype.toLowerCase`, modelled characterwise on the
ASCII range. -/
def jsToLower (s : String) : String :=
  ⟨s.data.map Char.toLower⟩

/-- JS `hay.includes(needle)`: contiguous-substring containment. -/
def jsIncludes (hay needle : String) : Bool :=
  decide (needle.data <:+: hay.data)

/-- Splits a character list into its maximal leading run of ASCII
digits and the remainder (the `\d+` behaviour used by the coordinate
regex). -/
def spanDigits : List Char → List Char × List Char
  | [] => ([], [])
  | c :: cs =>
    if c.isDigit then
      let p := spanDigits cs
      (c :: p.1, p.2)
    else ([], c :: cs)

/-- Numeric value of a digit run, most significant first. -/
def digitsVal (ds : List Char) : Nat :=
  ds.foldl (fun a c => 10 * a + (c.toNat - 48)) 0

/-- Matches the regex fragment `\d+(\.\d+)?` at the head of a
character list, returning the parsed numeric value (JS `parseFloat`
modelled exactly over ℚ) and the unconsumed remainder.  When a dot is
not followed by a digit the optional fraction group matches empty, as
in the source regex. -/
def matchUnsigned (cs : List Char) : Option (ℚ × List Char) :=
  let p := spanDigits cs
  if p.1 = [] then none
  else
    match p.2 with
    | [] => some ((digitsVal p.1 : ℚ), [])
    | c :: r2 =>
      if c = '.' then
        let p2 := spanDigits r2
        if p2.1 = [] then some ((digitsVal p.1 : ℚ), c :: r2)
        else some ((digitsVal p.1 : ℚ) + (digitsVal p2.1 : ℚ) / 10 ^ p2.1.length, p2.2)
      else some ((digitsVal p.1 : ℚ), c :: r2)

/-- Matches `-?\d+(\.\d+)?` at the head of a character list. -/
def matchSigned (cs : List Char) : Option (ℚ × List Char) :=
  match cs with
  | [] => none
  | c :: rest =>
    if c = '-' then (matchUnsigned rest).map (fun p => (-p.1, p.2))
    else matchUnsigned (c :: rest)

/-- The coordinate test `isValidCoordinates` (regex
`^-?\d+(\.\d+)?,-?\d+(\.\d+)?$` of src/index.mjs line 182) fused with
the value extraction `text.split(",").map(c => parseFloat(c.trim()))`
of src/index.mjs line 58: for a string in the regex language the two
are the decimal values of the two components, so the fused function
returns `some` exactly on the regex language with those values. -/
def parseCoordinates (s : String) : Option (ℚ × ℚ) :=
  match matchSigned s.data with
  | some (a, c :: rest) =>
    if c = ',' then
      match matchSigned rest with
      | some (b, []) => some (a, b)
      | _ => none
    else none
  | _ => none

/-- `isValidCoordinates` of src/index.mjs (identical in the other two
variants): true exactly when the whole string matches the coordinate
regex. -/
def isValidCoordinates (s : String) : Bool :=
  (parseCoordinates s).isSome

/-- The keyword list of `checkIfLocationBased` (src/index.mjs line 80). -/
def locationKeywords : List String :=
  ["nearby", "close to", "around", "location", "near", "place"]

/-- `checkIfLocationBased` of src/index.mjs: some keyword occurs in
the lowercased query. -/
def checkIfLocationBased (query : String) : Bool :=
  locationKeywords.any (fun keyword => jsIncludes (jsToLower query) keyword)

/-- The fixed system instruction used by every OpenAI call. -/
def sysContent : String := "You are a helpful assistant."

/-- `response.choices[0].message.content.trim()`: the trimmed first
choice on success; accessing a missing first choice, like a rejected
API call, throws. -/
def extractChoice : LLMOutcome → Except Unit String
  | .success (c :: _) => .ok (jsTrim c)
  | .success [] => .error ()
  | .failure => .error ()

/-- `getChatGPTResponse` of src/index.mjs (lines 85-101): the request
it issues and the value it returns or the exception it propagates. -/
def getChatGPTResponse (userQuery : String) (out : LLMOutcome) :
    ChatRequest × Except Unit String :=
  (⟨"gpt-3.5-turbo", [("system", sysContent), ("user", userQuery)], 150⟩,
   extractChoice out)

/-- The place-enrichment prompt built by `getSuggestionsFromGPT3`
(src/index.mjs line 161): place names joined by `", "` via
`Array.prototype.join`. -/
def placesPrompt (places : List Place) : String :=
  "Here are some nearby places: " ++ String.intercalate ", " (places.map Place.name)
    ++ ". Please suggest the best ones to visit."

/-- `getSuggestionsFromGPT3` of src/index.mjs (lines 159-178),
textually identical in src/unnamed/part_000 (lines 117-136). -/
def getSuggestionsFromGPT3 (places : List Place) (out : LLMOutcome) :
    ChatRequest × Except Unit String :=
  (⟨"gpt-3.5-turbo", [("system", sysContent), ("user", placesPrompt places)], 150⟩,
   extractChoice out)

/-- The prompt built by `getSuggestionsFromGPT3` of src/bot.mjs
(line 108), which words it with "amusementParks". -/
def amusementPrompt (amusementParks : List Place) : String :=
  "Here are some nearby amusementParks: "
    ++ String.intercalate ", " (amusementParks.map Place.name)
    ++ ". Please suggest the best ones to visit."

/-- `getSuggestionsFromGPT3` of src/bot.mjs (lines 106-125). -/
def getSuggestionsFromGPT3B (amusementParks : List Place) (out : LLMOutcome) :
    ChatRequest × Except Unit String :=
  (⟨"gpt-3.5-turbo", [("system", sysContent), ("user", amusementPrompt amusementParks)], 150⟩,
   extractChoice out)

/-- `getNearbyPlaces` of src/index.mjs (lines 134-156): fixed radius
5000; a thrown fetch/parse error or a response without a `results`
field yields the empty list. -/
def getNearbyPlaces (latitude longitude : ℚ) (query : String) (out : FetchOutcome) :
    PlacesRequest × List Place :=
  (⟨latitude, longitude, 5000, query⟩,
   match out with
   | .ok (some results) => results
   | .ok none => []
   | .thrown => [])

/-- `getNearbyPlaces` of src/unnamed/part_000 (lines 97-114): fixed
radius 5000 through the Foursquare SDK; a rejected call yields the
empty list. -/
def getNearbyPlacesV2 (latitude longitude : ℚ) (query : String) (out : SdkOutcome) :
    PlacesRequest × List Place :=
  (⟨latitude, longitude, 5000, query⟩,
   match out with
   | .ok results => results
   | .thrown => [])

/-- `getNearbyAmusementParks` of src/bot.mjs (lines 85-103): fixed
radius 100000 and fixed query "amusement"; a rejected call yields the
empty list. -/
def getNearbyAmusementParks (latitude longitude : ℚ) (out : SdkOutcome) :
    PlacesRequest × List Place :=
  (⟨latitude, longitude, 100000, "amusement"⟩,
   match out with
   | .ok results => results
   | .thrown => [])

/-- Greeting of the `/start` branch of src/index.mjs (line 47). -/
def greetingMsg : String := "Hello! How can I assist you today? Ask me anything!"

/-- Acknowledgment for an unsolicited location (src/index.mjs line 55). -/
def shareLocationAck : String :=
  "Thank you for sharing your location! What information do you need?"

/-- Acknowledgment for unsolicited coordinates (src/index.mjs line 63). -/
def shareCoordsAck : String :=
  "Thank you for sharing your coordinates! What information do you need?"

/-- Prompt asking for a location after a location-seeking query
(src/index.mjs line 70). -/
def gotItMsg : String :=
  "Got it! Now, please share your location for more accurate suggestions."

/-- Reply for an empty places result (src/index.mjs line 109,
src/unnamed/part_000 line 72). -/
def noPlacesMsg (query : String) : String :=
  "I couldn\u0027t find any nearby " ++ query ++ ". Please try again later."

/-- `userState[chatId]?.awaitingLocation` with JS truthiness: an
absent record reads as not awaiting. -/
def awaiting : Option ChatState → Bool
  | some st => st.awaitingLocation
  | none => false

/-- `const { query } = userState[chatId]`, read only on branches where
the record exists. -/
def storedQuery : Option ChatState → String
  | some st => st.query
  | none => ""

/-- `handleLocation` of src/index.mjs (lines 104-116): on an empty
places result it replies and returns early, leaving the state as it
was; otherwise it sends the suggestions and only then resets the
state, so a summarizer exception leaves the state untouched and sends
nothing. -/
def handleLocation (st : Option ChatState) (latitude longitude : ℚ) (query : String)
    (pOut : FetchOutcome) (lOut : LLMOutcome) : TurnResult :=
  let call := getNearbyPlaces latitude longitude query pOut
  if call.2.isEmpty then
    ⟨[noPlacesMsg query], st, [call.1], [], false⟩
  else
    let sug := getSuggestionsFromGPT3 call.2 lOut
    match sug.2 with
    | .ok text => ⟨[text], some ⟨false, ""⟩, [call.1], [sug.1], false⟩
    | .error _ => ⟨[], st, [call.1], [sug.1], true⟩

/-- `handleMessage` of src/index.mjs (lines 39-76).  Branch order as
in the source: `/start` text, then an explicit location payload, then
text accepted by the coordinate regex, then the keyword classifier.
A message with neither text nor location reaches
`checkIfLocationBased(undefined)` and throws. -/
def handleMessage (msg : TGMessage) (st : Option ChatState)
    (pOut : FetchOutcome) (lOut : LLMOutcome) : TurnResult :=
  if msg.text = some "/start" then
    ⟨[greetingMsg], some ⟨false, ""⟩, [], [], false⟩
  else
    match msg.location with
    | some (latitude, longitude) =>
      if awaiting st then
        handleLocation st latitude longitude (storedQuery st) pOut lOut
      else ⟨[shareLocationAck], st, [], [], false⟩
    | none =>
      match msg.text with
      | some t =>
        match parseCoordinates t with
        | some (latitude, longitude) =>
          if awaiting st then
            handleLocation st latitude longitude (storedQuery st) pOut lOut
          else ⟨[shareCoordsAck], st, [], [], false⟩
        | none =>
          if checkIfLocationBased t then
            ⟨[gotItMsg], some ⟨true, jsTrim t⟩, [], [], false⟩
          else
            let r := getChatGPTResponse t lOut
            match r.2 with
            | .ok answer => ⟨[answer], st, [], [r.1], false⟩
            | .error _ => ⟨[], st, [], [r.1], true⟩
      | none => ⟨[], st, [], [], true⟩

/-- Turn result for the search-term variant src/unnamed/part_000,
whose per-chat state is the single entry `userSearchTerms[chatId]`
(`none` models both an absent key and the stored `null`). -/
structure TurnResultV2 where
  replies : List String
  term : Option String
  placesCalls : List PlacesRequest
  llmCalls : List ChatRequest
  crashed : Bool
  deriving DecidableEq, Repr

/-- JS falsiness of `userSearchTerms[chatId]`: absent, `null` and the
empty string are all falsy. -/
def termFalsy : Option String → Bool
  | none => true
  | some s => s = ""

/-- JS truthiness of `message.text`. -/
def textTruthy : Option String → Bool
  | none => false
  | some s => s ≠ ""

/-- Rendering of the stored search term where src/unnamed/part_000
interpolates it into a template literal or passes it on: a `null`
term renders as "null". -/
def termStr : Option String → String
  | some s => s
  | none => "null"

/-- Greeting of the `/start` branch of src/unnamed/part_000 (line 50). -/
def greetingV2 : String :=
  "Hello! What do you want to search nearby? Please enter your query."

/-- Reply after capturing a search term (src/unnamed/part_000 line 54). -/
def shareLocationPromptV2 : String := "Please share your location."

/-- Fallback reply of src/unnamed/part_000 (line 61) and src/bot.mjs
(line 53). -/
def fallbackMsgV2 : String :=
  "Please send your location or coordinates in the format \"latitude,longitude\"."

/-- `handleLocation` of src/unnamed/part_000 (lines 66-79): same
shape as the src/index.mjs one, over the SDK places call and the
stored search term. -/
def handleLocationV2 (term : Option String) (latitude longitude : ℚ)
    (sOut : SdkOutcome) (lOut : LLMOutcome) : TurnResultV2 :=
  let q := termStr term
  let call := getNearbyPlacesV2 latitude longitude q sOut
  if call.2.isEmpty then
    ⟨[noPlacesMsg q], term, [call.1], [], false⟩
  else
    let sug := getSuggestionsFromGPT3 call.2 lOut
    match sug.2 with
    | .ok text => ⟨[text], none, [call.1], [sug.1], false⟩
    | .error _ => ⟨[], term, [call.1], [sug.1], true⟩

/-- `handleMessage` of src/unnamed/part_000 (lines 43-63).  Branch
order as in the source: `/start`, then — when no search term is
pending — capture of any truthy text as the new search term, then the
location payload, then coordinate text, then the fallback reply. -/
def handleMessageV2 (msg : TGMessage) (term : Option String)
    (sOut : SdkOutcome) (lOut : LLMOutcome) : TurnResultV2 :=
  if msg.text = some "/start" then
    ⟨[greetingV2], none, [], [], false⟩
  else if termFalsy term && textTruthy msg.text then
    ⟨[shareLocationPromptV2], some (jsTrim ((msg.text).getD "")), [], [], false⟩
  else
    match msg.location with
    | some (latitude, longitude) => handleLocationV2 term latitude longitude sOut lOut
    | none =>
      match msg.text with
      | some t =>
        match parseCoordinates t with
        | some (latitude, longitude) => handleLocationV2 term latitude longitude sOut lOut
        | none => ⟨[fallbackMsgV2], term, [], [], false⟩
      | none => ⟨[fallbackMsgV2], term, [], [], false⟩

/-- Turn result for the stateless amusement-park variant src/bot.mjs. -/
structure TurnResultB where
  replies : List String
  placesCalls : List PlacesRequest
  llmCalls : List ChatRequest
  crashed : Bool
  deriving DecidableEq, Repr

/-- Greeting of the `/start` branch of src/bot.mjs (line 46),
including the source's spelling of "amusment". -/
def greetingB : String :=
  "Hello! Please share your location to get nearby amusment park suggestions. You can also send your location coordinates in the format \"latitude,longitude\"."

/-- Reply for an empty amusement-park result (src/bot.mjs line 62). -/
def noSpotsMsgB : String :=
  "I couldn\u0027t find any nearby tourist spots. Please try again later."

/-- `handleLocation` of src/bot.mjs (lines 58-67). -/
def handleLocationB (latitude longitude : ℚ) (sOut : SdkOutcome) (lOut : LLMOutcome) :
    TurnResultB :=
  let call := getNearbyAmusementParks latitude longitude sOut
  if call.2.isEmpty then
    ⟨[noSpotsMsgB], [call.1], [], false⟩
  else
    let sug := getSuggestionsFromGPT3B call.2 lOut
    match sug.2 with
    | .ok text => ⟨[text], [call.1], [sug.1], false⟩
    | .error _ => ⟨[], [call.1], [sug.1], true⟩

/-- `handleMessage` of src/bot.mjs (lines 41-55): `/start`, then the
location payload, then coordinate text, then the fallback reply. -/
def handleMessageB (msg : TGMessage) (sOut : SdkOutcome) (lOut : LLMOutcome) :
    TurnResultB :=
  if msg.text = some "/start" then
    ⟨[greetingB], [], [], false⟩
  else
    match msg.location with
    | some (latitude, longitude) => handleLocationB latitude longitude sOut lOut
    | none =>
      match msg.text with
      | some t =>
        match parseCoordinates t with
        | some (latitude, longitude) => handleLocationB latitude longitude sOut lOut
        | none => ⟨[fallbackMsgV2], [], [], false⟩
      | none => ⟨[fallbackMsgV2], [], [], false⟩

/-- Wellformedness of one decimal component of the claimed coordinate
shape: a nonempty run of digits, then an optional fractional run of
digits. -/
def coordComponentWF (ip fp : List Char) : Prop :=
  ip ≠ [] ∧ (∀ c ∈ ip, c.isDigit = true) ∧ (∀ c ∈ fp, c.isDigit = true)

/-- The unsigned decimal text: integer digits, then a dot and the
fraction digits when the fraction is nonempty. -/
def decCharsU (ip fp : List Char) : List Char :=
  ip ++ (if fp = [] then [] else '.' :: fp)

/-- A signed decimal text: an optional leading minus, then the
unsigned decimal text. -/
def decChars (neg : Bool) (ip fp : List Char) : List Char :=
  (if neg then ['-'] else []) ++ decCharsU ip fp

/-- The exact numeric value of the unsigned decimal text. -/
def valU (ip fp : List Char) : ℚ :=
  (digitsVal ip : ℚ) + (digitsVal fp : ℚ) / 10 ^ fp.length

/-- The exact numeric value of the signed decimal text. -/
def decValQ (neg : Bool) (ip fp : List Char) : ℚ :=
  if neg then -(valU ip fp) else valU ip fp

theorem spanDigits_append (ds rest : List Char)
    (hd : ∀ c ∈ ds, c.isDigit = true)
    (hr : ∀ c, rest.head? = some c → c.isDigit = false) :
    spanDigits (ds ++ rest) = (ds, rest) := by
  induction ds with
  | nil =>
    simp only [List.nil_append]
    cases rest with
    | nil => rfl
    | cons c r =>
      have : c.isDigit = false := hr c rfl
      simp [spanDigits, this]
  | cons c ds ih =>
    have hc : c.isDigit = true := hd c (List.mem_cons_self _ _)
    have ih2 := ih (fun x hx => hd x (List.mem_cons_of_mem _ hx))
    simp [spanDigits, hc, ih2]

theorem spanDigits_append_eq (cs : List Char) :
    (spanDigits cs).1 ++ (spanDigits cs).2 = cs := by
  induction cs with
  | nil => rfl
  | cons c cs ih =>
    by_cases hc : c.isDigit
    · simp [spanDigits, hc, ih]
    · simp [spanDigits, hc]

theorem spanDigits_fst_digits (cs : List Char) :
    ∀ c ∈ (spanDigits cs).1, c.isDigit = true := by
  induction cs with
  | nil => intro x hx; simp [spanDigits] at hx
  | cons c cs ih =>
    by_cases hc : c.isDigit
    · intro x hx
      simp only [spanDigits, if_pos hc] at hx
      rcases List.mem_cons.mp hx with rfl | hx
      · exact hc
      · exact ih x hx
    · intro x hx
      simp [spanDigits, hc] at hx

theorem matchUnsigned_eval (cs ip r1 : List Char) (e : spanDigits cs = (ip, r1)) :
    matchUnsigned cs =
      (if ip = [] then none
       else
         match r1 with
         | [] => some ((digitsVal ip : ℚ), [])
         | c :: r2 =>
           if c = '.' then
             if (spanDigits r2).1 = [] then some ((digitsVal ip : ℚ), c :: r2)
             else some ((digitsVal ip : ℚ)
                 + (digitsVal (spanDigits r2).1 : ℚ) / 10 ^ (spanDigits r2).1.length,
               (spanDigits r2).2)
           else some ((digitsVal ip : ℚ), c :: r2)) := by
  unfold matchUnsigned
  rw [e]

theorem matchUnsigned_complete (ip fp rest : List Char)
    (h : coordComponentWF ip fp)
    (hsep : rest = [] ∨ ∃ r, rest = ',' :: r) :
    matchUnsigned (decCharsU ip fp ++ rest) = some (valU ip fp, rest) := by
  obtain ⟨hip, hipd, hfpd⟩ := h
  have hrhead : ∀ c, rest.head? = some c → c.isDigit = false := by
    intro c hc
    rcases hsep with rfl | ⟨r, rfl⟩
    · simp at hc
    · simp only [List.head?] at hc
      cases hc
      decide
  by_cases hfp : fp = []
  · subst hfp
    have hsh : decCharsU ip [] ++ rest = ip ++ rest := by simp [decCharsU]
    have h1 : spanDigits (ip ++ rest) = (ip, rest) := spanDigits_append ip rest hipd hrhead
    rw [hsh, matchUnsigned_eval _ _ _ h1, if_neg hip]
    have hval : valU ip [] = (digitsVal ip : ℚ) := by
      simp [valU, digitsVal]
    rcases hsep with rfl | ⟨r, rfl⟩
    · rw [hval]
    · rw [hval]
      have hcomma : ¬(',' = '.') := by decide
      simp [hcomma]
  · have hdot : ∀ c, ('.' :: (fp ++ rest)).head? = some c → c.isDigit = false := by
      intro c hc
      simp only [List.head?] at hc
      cases hc
      decide
    have hsh : decCharsU ip fp ++ rest = ip ++ '.' :: (fp ++ rest) := by
      simp [decCharsU, hfp]
    have h1 : spanDigits (ip ++ '.' :: (fp ++ rest)) = (ip, '.' :: (fp ++ rest)) :=
      spanDigits_append ip _ hipd hdot
    have h2 : spanDigits (fp ++ rest) = (fp, rest) := spanDigits_append fp rest hfpd hrhead
    rw [hsh, matchUnsigned_eval _ _ _ h1, if_neg hip]
    simp [h2, hfp, valU]

theorem decCharsU_nil (ip : List Char) : decCharsU ip [] = ip := by
  simp [decCharsU]

theorem matchUnsigned_sound (cs : List Char) (q : ℚ) (rest : List Char)
    (h : matchUnsigned cs = some (q, rest)) :
    ∃ ip fp, coordComponentWF ip fp ∧ cs = decCharsU ip fp ++ rest ∧ q = valU ip fp := by
  rcases e : spanDigits cs with ⟨ip, r1⟩
  have hcs : ip ++ r1 = cs := by
    have h0 := spanDigits_append_eq cs
    rw [e] at h0
    exact h0
  have hdig : ∀ c ∈ ip, c.isDigit = true := by
    have h0 := spanDigits_fst_digits cs
    rw [e] at h0
    exact h0
  rw [matchUnsigned_eval cs ip r1 e] at h
  by_cases hip : ip = []
  · rw [if_pos hip] at h
    cases h
  · rw [if_neg hip] at h
    cases r1 with
    | nil =>
      obtain ⟨hq, hr⟩ := Prod.mk.inj (Option.some.inj h)
      subst hr
      refine ⟨ip, [], ⟨hip, hdig, by simp⟩, ?_, ?_⟩
      · rw [decCharsU_nil, List.append_nil, ← hcs, List.append_nil]
      · rw [← hq]
        simp [valU, digitsVal]
    | cons c r2 =>
      dsimp only [] at h
      by_cases hc : c = '.'
      · rw [if_pos hc] at h
        by_cases hp21 : (spanDigits r2).1 = []
        · rw [if_pos hp21] at h
          obtain ⟨hq, hr⟩ := Prod.mk.inj (Option.some.inj h)
          subst hr
          refine ⟨ip, [], ⟨hip, hdig, by simp⟩, ?_, ?_⟩
          · rw [decCharsU_nil, ← hcs]
          · rw [← hq]
            simp [valU, digitsVal]
        · rw [if_neg hp21] at h
          obtain ⟨hq, hr⟩ := Prod.mk.inj (Option.some.inj h)
          subst hr
          have hfpd : ∀ x ∈ (spanDigits r2).1, x.isDigit = true := spanDigits_fst_digits r2
          have hr2 : (spanDigits r2).1 ++ (spanDigits r2).2 = r2 := spanDigits_append_eq r2
          refine ⟨ip, (spanDigits r2).1, ⟨hip, hdig, hfpd⟩, ?_, ?_⟩
          · rw [decCharsU, if_neg hp21, ← hcs, hc]
            conv_lhs => rw [← hr2]
            simp [List.append_assoc]
          · rw [← hq]
            rfl
      · rw [if_neg hc] at h
        obtain ⟨hq, hr⟩ := Prod.mk.inj (Option.some.inj h)
        subst hr
        refine ⟨ip, [], ⟨hip, hdig, by simp⟩, ?_, ?_⟩
        · rw [decCharsU_nil, ← hcs]
        · rw [← hq]
          simp [valU, digitsVal]

theorem matchSigned_complete (neg : Bool) (ip fp rest : List Char)
    (h : coordComponentWF ip fp)
    (hsep : rest = [] ∨ ∃ r, rest = ',' :: r) :
    matchSigned (decChars neg ip fp ++ rest) = some (decValQ neg ip fp, rest) := by
  have hu := matchUnsigned_complete ip fp rest h hsep
  cases neg with
  | true =>
    show matchSigned ('-' :: (decCharsU ip fp ++ rest)) = some (decValQ true ip fp, rest)
    simp only [matchSigned, if_pos rfl, hu]
    rfl
  | false =>
    obtain ⟨hip, hipd, hfpd⟩ := h
    obtain ⟨c, ip2, rfl⟩ : ∃ c ip2, ip = c :: ip2 := by
      cases ip with
      | nil => exact absurd rfl hip
      | cons a b => exact ⟨a, b, rfl⟩
    have hcd : c.isDigit = true := hipd c (List.mem_cons_self _ _)
    have hcne : ¬(c = '-') := by
      intro he
      rw [he] at hcd
      exact absurd hcd (by decide)
    show matchSigned (c :: ((ip2 ++ (if fp = [] then [] else '.' :: fp)) ++ rest))
        = some (decValQ false (c :: ip2) fp, rest)
    simp only [matchSigned, if_neg hcne]
    exact hu

theorem matchSigned_sound (cs : List Char) (q : ℚ) (rest : List Char)
    (h : matchSigned cs = some (q, rest)) :
    ∃ neg ip fp, coordComponentWF ip fp ∧ cs = decChars neg ip fp ++ rest
      ∧ q = decValQ neg ip fp := by
  cases cs with
  | nil => cases h
  | cons c cs2 =>
    rw [matchSigned] at h
    by_cases hc : c = '-'
    · subst hc
      rw [if_pos rfl] at h
      rcases hm : matchUnsigned cs2 with _ | ⟨q2, r2⟩
      · rw [hm] at h
        cases h
      · rw [hm] at h
        obtain ⟨hq, hr⟩ := Prod.mk.inj (Option.some.inj h)
        obtain ⟨ip, fp, hwf, hsh, hv⟩ := matchUnsigned_sound cs2 q2 r2 hm
        refine ⟨true, ip, fp, hwf, ?_, ?_⟩
        · rw [← hr, hsh]
          simp [decChars]
        · rw [← hq, hv]
          simp [decValQ]
    · rw [if_neg hc] at h
      obtain ⟨ip, fp, hwf, hsh, hv⟩ := matchUnsigned_sound (c :: cs2) q rest h
      refine ⟨false, ip, fp, hwf, ?_, ?_⟩
      · rw [hsh]
        simp [decChars]
      · rw [hv]
        simp [decValQ]

theorem parseCoordinates_complete (neg1 : Bool) (ip1 fp1 : List Char)
    (neg2 : Bool) (ip2 fp2 : List Char)
    (h1 : coordComponentWF ip1 fp1) (h2 : coordComponentWF ip2 fp2) :
    parseCoordinates ⟨decChars neg1 ip1 fp1 ++ ',' :: decChars neg2 ip2 fp2⟩
      = some (decValQ neg1 ip1 fp1, decValQ neg2 ip2 fp2) := by
  have hm1 := matchSigned_complete neg1 ip1 fp1 (',' :: decChars neg2 ip2 fp2) h1
    (Or.inr ⟨decChars neg2 ip2 fp2, rfl⟩)
  have hm2 : matchSigned (decChars neg2 ip2 fp2) = some (decValQ neg2 ip2 fp2, []) := by
    have h0 := matchSigned_complete neg2 ip2 fp2 [] h2 (Or.inl rfl)
    rw [List.append_nil] at h0
    exact h0
  rw [parseCoordinates]
  show (match matchSigned (decChars neg1 ip1 fp1 ++ ',' :: decChars neg2 ip2 fp2) with
    | some (a, c :: rest) =>
      if c = ',' then
        match matchSigned rest with
        | some (b, []) => some (a, b)
        | _ => none
      else none
    | _ => none) = some (decValQ neg1 ip1 fp1, decValQ neg2 ip2 fp2)
  rw [hm1]
  simp only [if_pos rfl]
  rw [hm2]
  simp

theorem parseCoordinates_sound (s : String) (a b : ℚ)
    (h : parseCoordinates s = some (a, b)) :
    ∃ neg1 ip1 fp1 neg2 ip2 fp2, coordComponentWF ip1 fp1 ∧ coordComponentWF ip2 fp2
      ∧ s.data = decChars neg1 ip1 fp1 ++ ',' :: decChars neg2 ip2 fp2
      ∧ a = decValQ neg1 ip1 fp1 ∧ b = decValQ neg2 ip2 fp2 := by
  rw [parseCoordinates] at h
  rcases hm1 : matchSigned s.data with _ | ⟨q1, r1⟩
  · rw [hm1] at h
    cases h
  · rw [hm1] at h
    cases r1 with
    | nil => cases h
    | cons c rest =>
      dsimp only [] at h
      by_cases hc : c = ','
      · rw [if_pos hc] at h
        rcases hm2 : matchSigned rest with _ | ⟨q2, r2⟩
        · rw [hm2] at h
          cases h
        · rw [hm2] at h
          cases r2 with
          | nil =>
            obtain ⟨ha, hb⟩ := Prod.mk.inj (Option.some.inj h)
            obtain ⟨neg1, ip1, fp1, hwf1, hsh1, hv1⟩ := matchSigned_sound s.data q1 (c :: rest) hm1
            obtain ⟨neg2, ip2, fp2, hwf2, hsh2, hv2⟩ := matchSigned_sound rest q2 [] hm2
            rw [List.append_nil] at hsh2
            refine ⟨neg1, ip1, fp1, neg2, ip2, fp2, hwf1, hwf2, ?_, ?_, ?_⟩
            · rw [hsh1, hc, hsh2]
            · rw [← ha, hv1]
            · rw [← hb, hv2]
          | cons d r3 => cases h
      · rw [if_neg hc] at h
        cases h

/-- C3: the coordinate parser accepts exactly the strings
"{float},{float}" — an optional minus sign, a nonempty digit run and
an optional fractional digit run on each side of one comma, with no
whitespace — and on them yields exactly the two numeric values; any
other string (extra whitespace, missing comma, non-numeric parts) is
rejected; and no latitude/longitude range check is performed, so
"999,999" is accepted. -/
theorem C3_coordinate_shape :
    (∀ (neg1 : Bool) (ip1 fp1 : List Char) (neg2 : Bool) (ip2 fp2 : List Char),
        coordComponentWF ip1 fp1 → coordComponentWF ip2 fp2 →
        parseCoordinates ⟨decChars neg1 ip1 fp1 ++ ',' :: decChars neg2 ip2 fp2⟩
          = some (decValQ neg1 ip1 fp1, decValQ neg2 ip2 fp2))
    ∧ (∀ s : String, isValidCoordinates s = true →
        ∃ neg1 ip1 fp1 neg2 ip2 fp2, coordComponentWF ip1 fp1 ∧ coordComponentWF ip2 fp2
          ∧ s.data = decChars neg1 ip1 fp1 ++ ',' :: decChars neg2 ip2 fp2)
    ∧ parseCoordinates "999,999" = some (999, 999)
    ∧ isValidCoordinates "999,999" = true
    ∧ isValidCoordinates " 1,2" = false
    ∧ isValidCoordinates "1, 2" = false
    ∧ isValidCoordinates "1 2" = false
    ∧ isValidCoordinates "12" = false
    ∧ isValidCoordinates "a,b" = false := by
  refine ⟨?_, ?_, by decide, by decide, by decide, by decide, by decide, by decide, by decide⟩
  · intro neg1 ip1 fp1 neg2 ip2 fp2 h1 h2
    exact parseCoordinates_complete neg1 ip1 fp1 neg2 ip2 fp2 h1 h2
  · intro s hv
    rw [isValidCoordinates] at hv
    obtain ⟨⟨a, b⟩, hab⟩ := Option.isSome_iff_exists.mp hv
    obtain ⟨neg1, ip1, fp1, neg2, ip2, fp2, h1, h2, hsh, _, _⟩ :=
      parseCoordinates_sound s a b hab
    exact ⟨neg1, ip1, fp1, neg2, ip2, fp2, h1, h2, hsh⟩

/-- Witness for C3 at the concrete accepted string "40.7,-74.0". -/
theorem C3_witness :
    parseCoordinates ⟨decChars false ['4', '0'] ['7'] ++ ',' :: decChars true ['7', '4'] ['0']⟩
        = some (decValQ false ['4', '0'] ['7'], decValQ true ['7', '4'] ['0'])
      ∧ (⟨decChars false ['4', '0'] ['7'] ++ ',' :: decChars true ['7', '4'] ['0']⟩ : String)
        = "40.7,-74.0" :=
  ⟨C3_coordinate_shape.1 false ['4', '0'] ['7'] true ['7', '4'] ['0']
      (by exact ⟨by decide, by decide, by decide⟩) (by exact ⟨by decide, by decide, by decide⟩),
   by decide⟩

/-- C4: the location-intent classifier returns true iff the lowercased
text contains some member of the fixed keyword set as a contiguous
substring (no word boundaries, so "placement" matches); its result
depends only on the lowercased text (case-insensitive, pure); it is
true on "Where is a good place to eat" and false on "What is the
capital of France". -/
theorem C4_classifier :
    (∀ s : String, checkIfLocationBased s = true
        ↔ ∃ k ∈ locationKeywords, k.data <:+: (jsToLower s).data)
    ∧ (∀ s t : String, jsToLower s = jsToLower t →
        checkIfLocationBased s = checkIfLocationBased t)
    ∧ checkIfLocationBased "Where is a good place to eat" = true
    ∧ checkIfLocationBased "What is the capital of France" = false
    ∧ checkIfLocationBased "placement" = true := by
  refine ⟨?_, ?_, by decide, by decide, by decide⟩
  · intro s
    rw [checkIfLocationBased, List.any_eq_true]
    constructor
    · rintro ⟨k, hk, hik⟩
      exact ⟨k, hk, of_decide_eq_true hik⟩
    · rintro ⟨k, hk, hik⟩
      exact ⟨k, hk, decide_eq_true hik⟩
  · intro s t h
    rw [checkIfLocationBased, checkIfLocationBased, h]

/-- Witness for C4 instantiating the case-insensitivity part at a
concrete pair and the characterization at a concrete keyword. -/
theorem C4_witness :
    checkIfLocationBased "PIZZA NEARBY" = checkIfLocationBased "pizza nearby"
      ∧ checkIfLocationBased "pizza nearby" = true :=
  ⟨C4_classifier.2.1 "PIZZA NEARBY" "pizza nearby" (by decide),
   (C4_classifier.1 "pizza nearby").mpr ⟨"nearby", by decide, by decide⟩⟩

/-- C5 counterexample: the amusement-park variant searches with a
fixed radius of 100000 meters, not 5000, so "Places Lookup always
searches with a fixed radius of 5000 meters" fails on that variant. -/
theorem C5_counterexample :
    (getNearbyAmusementParks 0 0 (.ok [])).1.radius = 100000
      ∧ (getNearbyAmusementParks 0 0 (.ok [])).1.radius ≠ 5000 := by
  exact ⟨rfl, by decide⟩

/-- C5 amended: the two `getNearbyPlaces` variants search with a fixed
radius of 5000 meters while the amusement-park variant uses 100000;
in all three, a transport or provider failure yields the empty
sequence, in src/index.mjs a malformed response (missing `results`)
does too, and a failed lookup is indistinguishable from an empty
result for the caller. -/
theorem C5_places_lookup_amended (latitude longitude : ℚ) (q : String)
    (out : FetchOutcome) (s : SdkOutcome) :
    (getNearbyPlaces latitude longitude q out).1.radius = 5000
    ∧ (getNearbyPlacesV2 latitude longitude q s).1.radius = 5000
    ∧ (getNearbyAmusementParks latitude longitude s).1.radius = 100000
    ∧ (getNearbyPlaces latitude longitude q .thrown).2 = []
    ∧ (getNearbyPlaces latitude longitude q (.ok none)).2 = []
    ∧ getNearbyPlaces latitude longitude q .thrown
        = getNearbyPlaces latitude longitude q (.ok (some []))
    ∧ (getNearbyPlacesV2 latitude longitude q .thrown).2 = []
    ∧ (getNearbyAmusementParks latitude longitude .thrown).2 = [] :=
  ⟨rfl, rfl, rfl, rfl, rfl, rfl, rfl, rfl⟩

/-- C8: every summarizer invocation sends the two-message exchange —
the fixed system instruction plus one user message with the caller's
prompt — with `max_tokens` 150, and on success returns the trimmed
first choice.  Stated for all three call-site builders. -/
theorem C8_summarizer_contract :
    (∀ (q : String) (out : LLMOutcome),
        (getChatGPTResponse q out).1
            = ⟨"gpt-3.5-turbo", [("system", sysContent), ("user", q)], 150⟩
          ∧ ∀ c cs, out = .success (c :: cs) →
              (getChatGPTResponse q out).2 = .ok (jsTrim c))
    ∧ (∀ (places : List Place) (out : LLMOutcome),
        (getSuggestionsFromGPT3 places out).1
            = ⟨"gpt-3.5-turbo", [("system", sysContent), ("user", placesPrompt places)], 150⟩
          ∧ ∀ c cs, out = .success (c :: cs) →
              (getSuggestionsFromGPT3 places out).2 = .ok (jsTrim c))
    ∧ (∀ (parks : List Place) (out : LLMOutcome),
        (getSuggestionsFromGPT3B parks out).1
            = ⟨"gpt-3.5-turbo", [("system", sysContent), ("user", amusementPrompt parks)], 150⟩
          ∧ ∀ c cs, out = .success (c :: cs) →
              (getSuggestionsFromGPT3B parks out).2 = .ok (jsTrim c)) := by
  refine ⟨fun q out => ⟨rfl, ?_⟩, fun p out => ⟨rfl, ?_⟩, fun p out => ⟨rfl, ?_⟩⟩
  all_goals rintro c cs rfl; rfl

/-- Witness for C8 at a concrete outcome whose first choice carries
surrounding whitespace. -/
theorem C8_witness :
    (getChatGPTResponse "hi" (.success [" an answer "])).2 = .ok "an answer" := by
  have ht : jsTrim " an answer " = "an answer" := by decide
  have h := (C8_summarizer_contract.1 "hi" (.success [" an answer "])).2 " an answer " [] rfl
  rw [ht] at h
  exact h

/-- C6: handling "/start" resets the chat to the idle state with an
empty pending query and replies with the fixed greeting, from any
prior state; doing it twice in a row yields the same state and the
same greeting both times. -/
theorem C6_start_idempotent (st : Option ChatState) (loc : Option (ℚ × ℚ))
    (p p2 : FetchOutcome) (l l2 : LLMOutcome) :
    handleMessage ⟨some "/start", loc⟩ st p l
        = ⟨[greetingMsg], some ⟨false, ""⟩, [], [], false⟩
      ∧ handleMessage ⟨some "/start", loc⟩
            (handleMessage ⟨some "/start", loc⟩ st p l).state p2 l2
          = handleMessage ⟨some "/start", loc⟩ st p l :=
  ⟨rfl, rfl⟩

/-- C1 counterexample: in the enrichment pipeline from
AwaitingLocation("pizza") with an empty places result, the reply is
sent but the state is NOT reset — the chat is still awaiting a
location afterwards, contradicting "state transitions to Idle
regardless of whether summarization occurred". -/
theorem C1_counterexample :
    (handleMessage ⟨none, some (1, 2)⟩ (some ⟨true, "pizza"⟩) (.ok (some []))
          (.success ["x"])).replies
        = [noPlacesMsg "pizza"]
      ∧ (handleMessage ⟨none, some (1, 2)⟩ (some ⟨true, "pizza"⟩) (.ok (some []))
            (.success ["x"])).state
          = some ⟨true, "pizza"⟩
      ∧ awaiting (handleMessage ⟨none, some (1, 2)⟩ (some ⟨true, "pizza"⟩) (.ok (some []))
            (.success ["x"])).state
          = true :=
  ⟨rfl, rfl, rfl⟩

/-- C1 amended: from AwaitingLocation(q), on an empty places result
the reply is the fixed not-found message and the state is left
unchanged (still AwaitingLocation(q)); on a non-empty result with a
successful summarization the summarizer output is sent and the state
transitions to Idle. -/
theorem C1_enrichment_amended (q s : String) (latitude longitude : ℚ)
    (places : List Place) (l : LLMOutcome)
    (hp : places ≠ []) (hl : extractChoice l = .ok s) :
    handleMessage ⟨none, some (latitude, longitude)⟩ (some ⟨true, q⟩) (.ok (some [])) l
        = ⟨[noPlacesMsg q], some ⟨true, q⟩, [⟨latitude, longitude, 5000, q⟩], [], false⟩
      ∧ handleMessage ⟨none, some (latitude, longitude)⟩ (some ⟨true, q⟩) (.ok (some places)) l
        = ⟨[s], some ⟨false, ""⟩, [⟨latitude, longitude, 5000, q⟩],
           [⟨"gpt-3.5-turbo", [("system", sysContent), ("user", placesPrompt places)], 150⟩],
           false⟩ := by
  constructor
  · rfl
  · obtain ⟨pl, ps, rfl⟩ : ∃ pl ps, places = pl :: ps := by
      cases places with
      | nil => exact absurd rfl hp
      | cons a b => exact ⟨a, b, rfl⟩
    cases l with
    | failure => simp [extractChoice] at hl
    | success cs2 =>
      cases cs2 with
      | nil => simp [extractChoice] at hl
      | cons c cs3 =>
        have hs : jsTrim c = s := by
          simpa [extractChoice] using hl
        rw [← hs]
        rfl

/-- Witness for C1 at a concrete enrichment turn. -/
theorem C1_witness :
    handleMessage ⟨none, some (1, 2)⟩ (some ⟨true, "pizza"⟩)
        (.ok (some [⟨"A"⟩, ⟨"B"⟩])) (.success ["Go to A"])
      = ⟨["Go to A"], some ⟨false, ""⟩, [⟨1, 2, 5000, "pizza"⟩],
         [⟨"gpt-3.5-turbo", [("system", sysContent), ("user", placesPrompt [⟨"A"⟩, ⟨"B"⟩])], 150⟩],
         false⟩ :=
  (C1_enrichment_amended "pizza" "Go to A" 1 2 [⟨"A"⟩, ⟨"B"⟩] (.success ["Go to A"])
    (by decide) (by rfl)).2

/-- C7: on a non-empty places result the summarizer is called with
exactly the prompt "Here are some nearby places: {comma-joined place
names}. Please suggest the best ones to visit.", the names joined in
the order returned by the places lookup. -/
theorem C7_enrichment_prompt (q : String) (latitude longitude : ℚ)
    (places : List Place) (l : LLMOutcome) (hp : places ≠ []) :
    (handleMessage ⟨none, some (latitude, longitude)⟩ (some ⟨true, q⟩)
        (.ok (some places)) l).llmCalls
      = [⟨"gpt-3.5-turbo",
          [("system", sysContent),
           ("user", "Here are some nearby places: "
              ++ String.intercalate ", " (places.map Place.name)
              ++ ". Please suggest the best ones to visit.")], 150⟩] := by
  obtain ⟨pl, ps, rfl⟩ : ∃ pl ps, places = pl :: ps := by
    cases places with
    | nil => exact absurd rfl hp
    | cons a b => exact ⟨a, b, rfl⟩
  cases l with
  | failure => rfl
  | success cs2 =>
    cases cs2 with
    | nil => rfl
    | cons c cs3 => rfl

/-- Witness for C7 at two concrete places, checking the joined order
"A, B". -/
theorem C7_witness :
    (handleMessage ⟨none, some (1, 2)⟩ (some ⟨true, "pizza"⟩)
        (.ok (some [⟨"A"⟩, ⟨"B"⟩])) .failure).llmCalls
      = [⟨"gpt-3.5-turbo",
          [("system", sysContent),
           ("user",
            "Here are some nearby places: A, B. Please suggest the best ones to visit.")],
          150⟩] := by
  have h := C7_enrichment_prompt "pizza" 1 2 [⟨"A"⟩, ⟨"B"⟩] .failure (by decide)
  have he : "Here are some nearby places: "
      ++ String.intercalate ", " (([⟨"A"⟩, ⟨"B"⟩] : List Place).map Place.name)
      ++ ". Please suggest the best ones to visit."
      = "Here are some nearby places: A, B. Please suggest the best ones to visit." := by
    decide
  rw [he] at h
  exact h

/-- C10: from AwaitingLocation(q), when the places lookup returns a
non-empty sequence but the summarizer call fails, no reply is sent
and the state is left unchanged — still AwaitingLocation(q) — because
the reset runs only after the suggestions reply is sent. -/
theorem C10_summarizer_failure_atomic (q : String) (latitude longitude : ℚ)
    (places : List Place) (l : LLMOutcome)
    (hp : places ≠ []) (hl : extractChoice l = .error ()) :
    handleMessage ⟨none, some (latitude, longitude)⟩ (some ⟨true, q⟩) (.ok (some places)) l
      = ⟨[], some ⟨true, q⟩, [⟨latitude, longitude, 5000, q⟩],
         [⟨"gpt-3.5-turbo", [("system", sysContent), ("user", placesPrompt places)], 150⟩],
         true⟩ := by
  obtain ⟨pl, ps, rfl⟩ : ∃ pl ps, places = pl :: ps := by
    cases places with
    | nil => exact absurd rfl hp
    | cons a b => exact ⟨a, b, rfl⟩
  cases l with
  | failure => rfl
  | success cs2 =>
    cases cs2 with
    | nil => rfl
    | cons c cs3 => simp [extractChoice] at hl

/-- Witness for C10 at a concrete failing summarizer call. -/
theorem C10_witness :
    handleMessage ⟨none, some (1, 2)⟩ (some ⟨true, "pizza"⟩)
        (.ok (some [⟨"A"⟩])) .failure
      = ⟨[], some ⟨true, "pizza"⟩, [⟨1, 2, 5000, "pizza"⟩],
         [⟨"gpt-3.5-turbo", [("system", sysContent), ("user", placesPrompt [⟨"A"⟩])], 150⟩],
         true⟩ :=
  C10_summarizer_failure_atomic "pizza" 1 2 [⟨"A"⟩] .failure (by decide) (by rfl)

/-- C9 counterexample: a free-text turn from AwaitingLocation("pizza
nearby") with classifier-false text leaves the chat still awaiting —
the state is unchanged but it is not Idle, so "remains Idle for every
starting state" fails. -/
theorem C9_counterexample :
    (handleMessage ⟨some "hello", none⟩ (some ⟨true, "pizza nearby"⟩) .thrown
          (.success ["hi"])).state
        = some ⟨true, "pizza nearby"⟩
      ∧ awaiting (handleMessage ⟨some "hello", none⟩ (some ⟨true, "pizza nearby"⟩) .thrown
            (.success ["hi"])).state
          = true
      ∧ isValidCoordinates "hello" = false
      ∧ checkIfLocationBased "hello" = false := by
  refine ⟨by decide, by decide, by decide, by decide⟩

/-- C9 amended: on free text that is not "/start", not coordinates
and classifier-false, the summarizer is called with the exact raw
text, the places lookup is not called, the reply is the summarizer
result on success, and the state is left unchanged whatever it was
(in particular, from Idle the chat remains Idle). -/
theorem C9_direct_question_amended (t : String) (st : Option ChatState)
    (p : FetchOutcome) (l : LLMOutcome)
    (h1 : t ≠ "/start") (h2 : isValidCoordinates t = false)
    (h3 : checkIfLocationBased t = false) :
    (handleMessage ⟨some t, none⟩ st p l).state = st
    ∧ (handleMessage ⟨some t, none⟩ st p l).placesCalls = []
    ∧ (handleMessage ⟨some t, none⟩ st p l).llmCalls
        = [⟨"gpt-3.5-turbo", [("system", sysContent), ("user", t)], 150⟩]
    ∧ ∀ s, extractChoice l = .ok s →
        handleMessage ⟨some t, none⟩ st p l
          = ⟨[s], st, [], [⟨"gpt-3.5-turbo", [("system", sysContent), ("user", t)], 150⟩],
             false⟩ := by
  have hpc : parseCoordinates t = none := by
    rcases hx : parseCoordinates t with _ | v
    · rfl
    · rw [isValidCoordinates, hx] at h2
      simp at h2
  have hne : ¬((⟨some t, none⟩ : TGMessage).text = some "/start") := by
    intro he
    exact h1 (Option.some.inj he)
  have key : handleMessage ⟨some t, none⟩ st p l
      = (match extractChoice l with
         | .ok answer =>
           (⟨[answer], st, [],
             [⟨"gpt-3.5-turbo", [("system", sysContent), ("user", t)], 150⟩],
             false⟩ : TurnResult)
         | .error _ =>
           ⟨[], st, [],
            [⟨"gpt-3.5-turbo", [("system", sysContent), ("user", t)], 150⟩],
            true⟩) := by
    rw [handleMessage, if_neg hne]
    dsimp only []
    rw [hpc, h3]
    rfl
  rw [key]
  rcases hx : extractChoice l with _ | s0
  · exact ⟨rfl, rfl, rfl, fun s hs => by simp at hs⟩
  · refine ⟨rfl, rfl, rfl, fun s hs => ?_⟩
    obtain rfl : s0 = s := Except.ok.inj hs
    rfl

/-- Witness for C9 at the concrete direct question "What is the
weather" from the idle state. -/
theorem C9_witness :
    handleMessage ⟨some "What is the weather", none⟩ (some ⟨false, ""⟩) .thrown
        (.success ["cloudy"])
      = ⟨["cloudy"], some ⟨false, ""⟩, [],
         [⟨"gpt-3.5-turbo", [("system", sysContent), ("user", "What is the weather")], 150⟩],
         false⟩ :=
  (C9_direct_question_amended "What is the weather" (some ⟨false, ""⟩) .thrown
      (.success ["cloudy"]) (by decide) (by decide) (by decide)).2.2.2 "cloudy" (by rfl)

/-- C2 counterexample: in the search-term variant
(src/unnamed/part_000), the coordinate text "1,2" arriving with no
pending search term is captured as a free-text search term — the
free-text rule fires before coordinate parsing, so the claimed
precedence does not hold in every dispatcher variant. -/
theorem C2_counterexample :
    isValidCoordinates "1,2" = true
      ∧ handleMessageV2 ⟨some "1,2", none⟩ none .thrown .failure
          = ⟨[shareLocationPromptV2], some "1,2", [], [], false⟩
      ∧ (handleMessageV2 ⟨some "1,2", none⟩ none .thrown .failure).placesCalls = [] := by
  refine ⟨by decide, by decide, by decide⟩

/-- C2 amended: the precedence "/start", then location payload or
coordinate text, then free text holds in the main dispatcher
(src/index.mjs) and in the amusement-park variant (src/bot.mjs): the
"/start" result ignores everything else, a location payload makes the
text content irrelevant (apart from "/start"), and coordinate text
bypasses the free-text handling.  It fails in the search-term variant
(see the counterexample). -/
theorem C2_precedence_amended :
    (∀ (loc : Option (ℚ × ℚ)) (st : Option ChatState) (p : FetchOutcome) (l : LLMOutcome),
        handleMessage ⟨some "/start", loc⟩ st p l
          = ⟨[greetingMsg], some ⟨false, ""⟩, [], [], false⟩)
    ∧ (∀ (t : String) (loc : ℚ × ℚ) (st : Option ChatState) (p : FetchOutcome)
          (l : LLMOutcome), t ≠ "/start" →
        handleMessage ⟨some t, some loc⟩ st p l = handleMessage ⟨none, some loc⟩ st p l)
    ∧ (∀ (t : String) (st : Option ChatState) (p : FetchOutcome) (l : LLMOutcome)
          (latitude longitude : ℚ), t ≠ "/start" →
        parseCoordinates t = some (latitude, longitude) →
        handleMessage ⟨some t, none⟩ st p l
          = if awaiting st then handleLocation st latitude longitude (storedQuery st) p l
            else ⟨[shareCoordsAck], st, [], [], false⟩)
    ∧ (∀ (loc : Option (ℚ × ℚ)) (s : SdkOutcome) (l : LLMOutcome),
        handleMessageB ⟨some "/start", loc⟩ s l = ⟨[greetingB], [], [], false⟩)
    ∧ (∀ (t : String) (loc : ℚ × ℚ) (s : SdkOutcome) (l : LLMOutcome), t ≠ "/start" →
        handleMessageB ⟨some t, some loc⟩ s l = handleMessageB ⟨none, some loc⟩ s l)
    ∧ (∀ (t : String) (s : SdkOutcome) (l : LLMOutcome) (latitude longitude : ℚ),
        t ≠ "/start" → parseCoordinates t = some (latitude, longitude) →
        handleMessageB ⟨some t, none⟩ s l = handleLocationB latitude longitude s l) := by
  refine ⟨fun loc st p l => rfl, ?_, ?_, fun loc s l => rfl, ?_, ?_⟩
  · intro t loc st p l ht
    have hne : ¬((⟨some t, some loc⟩ : TGMessage).text = some "/start") :=
      fun he => ht (Option.some.inj he)
    rw [handleMessage, if_neg hne]
    rfl
  · intro t st p l latitude longitude ht hpc
    have hne : ¬((⟨some t, none⟩ : TGMessage).text = some "/start") :=
      fun he => ht (Option.some.inj he)
    rw [handleMessage, if_neg hne]
    dsimp only []
    rw [hpc]
  · intro t loc s l ht
    have hne : ¬((⟨some t, some loc⟩ : TGMessage).text = some "/start") :=
      fun he => ht (Option.some.inj he)
    rw [handleMessageB, if_neg hne]
    rfl
  · intro t s l latitude longitude ht hpc
    have hne : ¬((⟨some t, none⟩ : TGMessage).text = some "/start") :=
      fun he => ht (Option.some.inj he)
    rw [handleMessageB, if_neg hne]
    dsimp only []
    rw [hpc]

/-- Witness for C2: the coordinate text "3,4" from the idle state is
acknowledged as coordinates, not routed through the classifier. -/
theorem C2_witness :
    handleMessage ⟨some "3,4", none⟩ (some ⟨false, ""⟩) .thrown .failure
      = ⟨[shareCoordsAck], some ⟨false, ""⟩, [], [], false⟩ := by
  exact C2_precedence_amended.2.2.1 "3,4" (some ⟨false, ""⟩) .thrown .failure 3 4
    (by decide) (by decide)
